import Mathlib

/-!
Verification of the core logic of the `sticker` media-gallery client:
identifier resolution, the Unsplash compliance notification, the multi-strategy
download pipeline, tag-to-slug routing with related-tag suggestions, and the
infinite-scroll pagination controller.  Each definition is a shallow embedding
of the corresponding TypeScript function; browser and library effects
(DOM clicks, `fetch`, `JSON.parse`, image decoding) are passed in explicitly
as environment parameters so that the control flow of the source is preserved.
-/

namespace Sticker

/-- Membership test for a prefix relation on character lists; models
JavaScript `String.prototype.startsWith` applied at a given offset. -/
def startsWithL : List Char → List Char → Bool
  | _, [] => true
  | [], _ :: _ => false
  | a :: as, b :: bs => a = b && startsWithL as bs

/-- Substring containment on character lists; models JavaScript
`String.prototype.includes` (the needle may occur at any offset). -/
def hasSubL (hay needle : List Char) : Bool :=
  match hay with
  | [] => startsWithL [] needle
  | _ :: rest => startsWithL hay needle || hasSubL rest needle

/-- Substring containment on strings, models JavaScript `hay.includes(needle)`. -/
def strIncludes (hay needle : String) : Bool :=
  hasSubL hay.toList needle.toList

/-- Prefix test on strings, models JavaScript `s.startsWith(p)` (stated over
the character lists so that it evaluates by kernel reduction). -/
def strStartsWith (s p : String) : Bool :=
  startsWithL s.toList p.toList

/-- Suffix test on strings, models JavaScript `s.endsWith(p)`: the reversed
string must start with the reversed suffix. -/
def strEndsWith (s p : String) : Bool :=
  startsWithL s.toList.reverse p.toList.reverse

/-- Case folding, models JavaScript `s.toLowerCase()` on the ASCII captions
and search terms the catalog uses. -/
def strToLower (s : String) : String :=
  String.mk (s.toList.map Char.toLower)

/- ### TagRouter: tag ↔ slug maps (src/project/src/components/About.tsx, TagPage) -/

/-- Embedding of the `TAG_TO_SLUG` object literal of `TagPage`
(src/project/src/components/About.tsx).  A JavaScript object with distinct
non-integer string keys is an insertion-ordered association list. -/
def TAG_TO_SLUG : List (String × String) :=
  [("airplane", "airplane-clipart"),
   ("apple", "apple-clipart"),
   ("baby", "baby-clipart"),
   ("bird", "bird-clipart"),
   ("birthday", "birthday-clipart"),
   ("book", "book-clipart"),
   ("camera", "camera-clipart"),
   ("car", "car-clipart"),
   ("cat", "cat-clipart"),
   ("christmas", "christmas-clipart"),
   ("crown", "crown-png"),
   ("dog", "dog-clipart"),
   ("flower", "flower-clipart"),
   ("gun", "gun-png"),
   ("money", "money-png"),
   ("pumpkin", "pumpkin-clipart"),
   ("others", "other-png")]

/-- Setting a key on a JavaScript object: an existing key is overwritten in
place, a new key is appended at the end (insertion order). -/
def jsObjSet (m : List (String × String)) (k v : String) : List (String × String) :=
  match m with
  | [] => [(k, v)]
  | (k0, v0) :: rest => if k0 = k then (k0, v) :: rest else (k0, v0) :: jsObjSet rest k v

/-- Embedding of `SLUG_TO_TAG`, derived in the source by
`Object.entries(TAG_TO_SLUG).reduce((acc, [tag, slug]) => ({ ...acc, [slug]: tag }), {})`. -/
def SLUG_TO_TAG : List (String × String) :=
  TAG_TO_SLUG.foldl (fun acc p => jsObjSet acc p.2 p.1) []

/- ### PaginationController (src/project/src/components/ImageGrid.tsx) -/

/-- One catalog asset as consumed by `ImageGrid` (fields actually read by the
filtering and pagination logic). -/
structure ImageRec where
  id : String
  caption : String
  tags : List String
  png_url : String
  sticker_url : String

/-- Embedding of `fixImageUrl` (ImageGrid.tsx): prepend the `/images/` root
unless the URL is already rooted there or is absolute. -/
def fixImageUrl (url : String) : String :=
  if !(strStartsWith url "/images/") && !(strStartsWith url "http") then
    "/images/" ++ url
  else url

/-- Embedding of `getFilteredImages` (ImageGrid.tsx): the caption must
case-insensitively contain the search term, and either no tag filter is active
or the asset shares a tag with the filter set; matching assets get their URLs
normalized. -/
def getFilteredImages (imgs : List ImageRec) (searchTerm : String)
    (selectedTags : List String) : List ImageRec :=
  (imgs.filter fun img =>
    strIncludes (strToLower img.caption) (strToLower searchTerm) &&
    (selectedTags.isEmpty || selectedTags.any fun tag => img.tags.contains tag)).map
    fun img =>
      { img with png_url := fixImageUrl img.png_url,
                 sticker_url := fixImageUrl img.sticker_url }

/-- Component state of `ImageGrid` relevant to pagination: the
`displayedImages` and `currentPage` React state cells. -/
structure GridState where
  displayedImages : List ImageRec
  currentPage : Nat

/-- The constant `imagesPerPage = 24` of ImageGrid.tsx. -/
def imagesPerPage : Nat := 24

/-- Initial React state: `displayedImages = []`, `currentPage = 1`. -/
def initialGridState : GridState := { displayedImages := [], currentPage := 1 }

/-- Embedding of `loadImages(page, imageSource)` (ImageGrid.tsx): slice the
window `[(page-1)*24, page*24)` out of the source; page 1 replaces the
displayed list, later pages append; `currentPage` becomes `page`. -/
def loadImages (page : Nat) (imageSource : List ImageRec) (st : GridState) : GridState :=
  let startIndex := (page - 1) * imagesPerPage
  let newImages := (imageSource.drop startIndex).take imagesPerPage
  { displayedImages :=
      if page = 1 then newImages else st.displayedImages ++ newImages,
    currentPage := page }

/-- Embedding of `loadMoreImages` (ImageGrid.tsx): recompute the filtered list
and load the next page. -/
def loadMoreImages (imgs : List ImageRec) (searchTerm : String)
    (selectedTags : List String) (st : GridState) : GridState :=
  loadImages (st.currentPage + 1) (getFilteredImages imgs searchTerm selectedTags) st

/-- Embedding of the filter-change effect of ImageGrid.tsx: whenever
`searchTerm` or `selectedTags` changes, the component runs
`loadImages(1, getFilteredImages())`. -/
def filterChangeEffect (imgs : List ImageRec) (searchTerm : String)
    (selectedTags : List String) (st : GridState) : GridState :=
  loadImages 1 (getFilteredImages imgs searchTerm selectedTags) st

/-- Embedding of `hasMoreImages = currentPage * imagesPerPage < filteredImages.length`
(ImageGrid.tsx); when false the intersection observer is not attached, so no
further growth is triggered. -/
def hasMoreImages (imgs : List ImageRec) (searchTerm : String)
    (selectedTags : List String) (st : GridState) : Bool :=
  st.currentPage * imagesPerPage <
    (getFilteredImages imgs searchTerm selectedTags).length

/-- Iterated load-more steps with the filter held fixed. -/
def loadMoreIter (imgs : List ImageRec) (searchTerm : String)
    (selectedTags : List String) : Nat → GridState → GridState
  | 0, st => st
  | k + 1, st => loadMoreIter imgs searchTerm selectedTags k
      (loadMoreImages imgs searchTerm selectedTags st)

/- ### IdentifierResolver: extractUnsplashId (src/unnamed/part_002, unsplash.ts) -/

/-- Character class `[a-zA-Z0-9_-]` of the source's ID regexes. -/
def isIdChar (c : Char) : Bool :=
  c.isAlphanum || c = '_' || c = '-'

/-- Length of the maximal leading run of ID characters; this is how far the
greedy quantifier `[a-zA-Z0-9_-]{10,13}` can reach from the current position. -/
def idRunLen : List Char → Nat
  | [] => 0
  | c :: cs => if isIdChar c then idRunLen cs + 1 else 0

/-- A string has a potential ID match at all only if some position starts a
run of at least ten ID characters; every pattern of the source requires such a
run. -/
def hasIdRun : List Char → Bool
  | [] => false
  | c :: cs => decide (10 ≤ idRunLen (c :: cs)) || hasIdRun cs

/-- One backtracking step of the quantifier `{10,13}` at the current position:
consume exactly `m` ID characters (allowed when `10 ≤ m` and `m` does not
exceed the greedy bound `min 13 (idRunLen l)`) and require the continuation to
accept the rest.  Returns the captured group on success. -/
def tryLen (l : List Char) (cont : List Char → Bool) (m : Nat) : Option (List Char) :=
  if 10 ≤ m ∧ m ≤ min 13 (idRunLen l) ∧ cont (l.drop m) then some (l.take m) else none

/-- Greedy match of `([a-zA-Z0-9_-]{10,13})` followed by `cont` at the current
position, with JavaScript backtracking order: the longest feasible length is
tried first, then shorter ones down to 10 (the guard in `tryLen` discards the
lengths below 10). -/
def groupAt (l : List Char) (cont : List Char → Bool) : Option (List Char) :=
  let top := min 13 (idRunLen l)
  [top, top - 1, top - 2, top - 3].findSome? (tryLen l cont)

/-- The literal suffix `-unsplash` used by two of the source patterns. -/
def unsplashSuffix : List Char := "-unsplash".toList

/-- Leftmost match of pattern 1, `[-_]([a-zA-Z0-9_-]{10,13})(?:-unsplash|$)`:
scan for a `-` or `_`, then the captured group, then either the literal
`-unsplash` or the end of the string. -/
def scanP1 : List Char → Option (List Char)
  | [] => none
  | c :: cs =>
    if c = '-' || c = '_' then
      match groupAt cs (fun rest => startsWithL rest unsplashSuffix || rest.isEmpty) with
      | some g => some g
      | none => scanP1 cs
    else scanP1 cs

/-- Leftmost match of pattern 2, `-([a-zA-Z0-9_-]{10,13})$`: a `-`, then the
captured group, which must end the string. -/
def scanP2 : List Char → Option (List Char)
  | [] => none
  | c :: cs =>
    if c = '-' then
      match groupAt cs (fun rest => rest.isEmpty) with
      | some g => some g
      | none => scanP2 cs
    else scanP2 cs

/-- Leftmost match of pattern 3, `([a-zA-Z0-9_-]{10,13})-unsplash`: the
captured group, then the literal `-unsplash`, starting at any position. -/
def scanP3 : List Char → Option (List Char)
  | [] => none
  | c :: cs =>
    match groupAt (c :: cs) (fun rest => startsWithL rest unsplashSuffix) with
    | some g => some g
    | none => scanP3 cs

/-- Match of pattern 4, `^([a-zA-Z0-9_-]{10,13})-`: anchored at the start, the
captured group followed by a `-`. -/
def scanP4 (l : List Char) : Option (List Char) :=
  groupAt l (fun rest => startsWithL rest ['-'])

/-- Leftmost match of the last-resort pattern, `([a-zA-Z0-9_-]{10,13})`: any
run of 10–13 ID characters anywhere in the string (greedy, so up to 13 of the
run starting at the leftmost feasible position). -/
def scanP5 : List Char → Option (List Char)
  | [] => none
  | c :: cs =>
    match groupAt (c :: cs) (fun _ => true) with
    | some g => some g
    | none => scanP5 cs

/-- The `for (const pattern of patterns)` loop of `extractUnsplashId`: the four
positional patterns are tried in order, first match wins. -/
def patternPhase (l : List Char) : Option (List Char) :=
  match scanP1 l with
  | some g => some g
  | none =>
    match scanP2 l with
    | some g => some g
    | none =>
      match scanP3 l with
      | some g => some g
      | none => scanP4 l

/-- Test of the source's canonical-ID regex `^[a-zA-Z0-9_-]{10,13}$`: the whole
string is 10–13 ID characters. -/
def isCanonicalId (s : String) : Bool :=
  (10 ≤ s.length && s.length ≤ 13) && s.toList.all isIdChar

/-- Result of the `JSON.parse` branch of `extractUnsplashId`.  The library call
is passed in as `parse`: `none` models `JSON.parse` (or the subsequent property
access) throwing — the source catches this and falls through — and
`some field` models a successful parse whose `unsplash_id` property is
`field` (`none` when absent).  JavaScript returns the field only when it is
truthy, so an empty string also falls through. -/
def jsonYield (parse : String → Option (Option String)) (s : String) : Option String :=
  if strStartsWith s "\x7b" && strEndsWith s "\x7d" then
    match parse s with
    | some (some id) => if id = "" then none else some id
    | _ => none
  else none

/-- The tail of `extractUnsplashId` after the JSON strategy: the four
positional patterns, then the permissive `([a-zA-Z0-9_-]{10,13})` scan, then
the definitive unresolved result `none`. -/
def fallbackScan (s : String) : Option String :=
  match patternPhase s.toList with
  | some g => some (String.mk g)
  | none =>
    match scanP5 s.toList with
    | some g => some (String.mk g)
    | none => none

/-- Embedding of `extractUnsplashId` (src/unnamed/part_002): empty input is
unresolved; a canonical-shape ID is returned unchanged; a serialized object
yields its `unsplash_id` field when parse succeeds; otherwise the four
positional patterns and then the permissive scan are tried; if everything
fails the result is `none` (never an error — the function is total by
construction, all throws of the source being caught at their origin). -/
def extractUnsplashId (parse : String → Option (Option String)) (s : String) :
    Option String :=
  if s = "" then none
  else if isCanonicalId s then some s
  else
    match jsonYield parse s with
    | some id => some id
    | none => fallbackScan s

/- ### ComplianceNotifier: triggerUnsplashDownload (src/unnamed/part_002) -/

/-- The `UNSPLASH_ACCESS_KEY` constant of unsplash.ts. -/
def UNSPLASH_ACCESS_KEY : String := "UNexRajSsADsyMXrFwKf9UJmNryJOohrFXpJoRwqR_8"

/-- The `UNSPLASH_API_URL` constant of unsplash.ts. -/
def UNSPLASH_API_URL : String := "https://api.unsplash.com"

/-- Input accepted by `triggerUnsplashDownload`: either a raw string or an
object `\x7b id?, download_location? \x7d`. -/
inductive UnsplashInput where
  | str (s : String)
  | obj (id : Option String) (downloadLocation : Option String)

/-- The object branch of `triggerUnsplashDownload` when `download_location` is
absent or falsy: a truthy `id` is resolved through `extractUnsplashId`. -/
def objIdBranch (parse : String → Option (Option String)) (id : Option String) :
    Option String × Option String :=
  match id with
  | some i => if i = "" then (none, none) else (none, extractUnsplashId parse i)
  | none => (none, none)

/-- The input dispatch at the top of `triggerUnsplashDownload`: the pair of
the local variables `downloadUrl` and `unsplashId` after the type-directed
branches.  A truthy `download_location` wins outright; a string containing
`/photos/` and `/download` is itself the download link; otherwise the ID is
resolved through `extractUnsplashId`. -/
def resolvePair (parse : String → Option (Option String)) (input : UnsplashInput) :
    Option String × Option String :=
  match input with
  | .obj id dl =>
    match dl with
    | some d => if d = "" then objIdBranch parse id else (some d, none)
    | none => objIdBranch parse id
  | .str s =>
    if strIncludes s "/photos/" && strIncludes s "/download" then (some s, none)
    else (none, extractUnsplashId parse s)

/-- The `if (!downloadUrl && unsplashId)` step of `triggerUnsplashDownload`:
with no direct link but a truthy resolved ID, build the provider endpoint URL
from the ID and the service credential. -/
def resolveDownloadUrl (parse : String → Option (Option String))
    (input : UnsplashInput) : Option String :=
  match resolvePair parse input with
  | (some d, _) => some d
  | (none, some uid) =>
    if uid = "" then none
    else some (UNSPLASH_API_URL ++ "/photos/" ++ uid ++ "/download?client_id="
      ++ UNSPLASH_ACCESS_KEY)
  | (none, none) => none

/-- Final step of `triggerUnsplashDownload`: with a URL the source fires one
fire-and-forget `fetch` and returns `true`; with none it logs a warning and
returns `false` without dispatching anything. -/
def dispatchResult : Option String → Option String × Bool
  | some u => (some u, true)
  | none => (none, false)

/-- Embedding of `triggerUnsplashDownload` (src/unnamed/part_002).  The result
is the pair (dispatched request URL if any, returned boolean). -/
def triggerUnsplashDownload (parse : String → Option (Option String))
    (input : UnsplashInput) : Option String × Bool :=
  dispatchResult (resolveDownloadUrl parse input)

/- ### DeliveryPipeline (src/unnamed/part_001, download.ts) -/

/-- Browser/network behaviour observed by one invocation of the download
pipeline.  Each field is the outcome of an effectful step of the source:
`linkThrows` — the synthetic-anchor DOM path of `downloadImageWithLink`
throws; `fetchResult` — `none` when `fetch`/blob conversion rejects,
`some ok` for a response with that `ok` flag; `imgLoads` — the image element
fires `onload` rather than `onerror`; `ctxAvailable` — `getContext('2d')`
returns a context; `exportThrows` — the canvas export throws (tainted
canvas); `blobNull` — `toBlob` hands the callback `null`; `windowThrows` —
the last-resort `window.open` call itself throws (e.g. an unparsable URL),
reaching the catch path of `downloadImageWithWindow`. -/
structure BrowserEnv where
  linkThrows : Bool
  fetchResult : Option Bool
  imgLoads : Bool
  ctxAvailable : Bool
  exportThrows : Bool
  blobNull : Bool
  windowThrows : Bool

/-- Embedding of `downloadImageWithLink` (download.ts): anchor click, reports
success optimistically unless the DOM path throws. -/
def downloadImageWithLink (env : BrowserEnv) (_url _filename : String) : Bool :=
  !env.linkThrows

/-- Embedding of `downloadImageWithFetch` (download.ts): false on a rejected
fetch or a non-ok response, true once the blob download path runs. -/
def downloadImageWithFetch (env : BrowserEnv) (_url _filename : String) : Bool :=
  match env.fetchResult with
  | none => false
  | some ok => ok

/-- Embedding of `downloadImageViaImgElement` (download.ts): false when the
image fails to load, the 2d context is unavailable, the canvas export throws
(the catch resolves false — a taint is a strategy failure, not an error), or
`toBlob` produces no blob; true otherwise. -/
def downloadImageViaImgElement (env : BrowserEnv) (_url _filename : String) : Bool :=
  if !env.imgLoads then false
  else if !env.ctxAvailable then false
  else if env.exportThrows then false
  else if env.blobNull then false
  else true

/-- Embedding of `downloadImageWithWindow` (download.ts): `window.open` in a
new tab, then `return true`; if the `window.open` call itself throws, the
catch logs the error and returns `false`. -/
def downloadImageWithWindow (env : BrowserEnv) (_url : String) : Bool :=
  !env.windowThrows

/-- Embedding of `processR2Url` (download.ts): on a known R2 CDN host, an
insecure-scheme URL is rewritten to https (the guarded `replace` of the first
occurrence of `http://` rewrites the prefix); other URLs pass unchanged. -/
def processR2Url (url : String) : String :=
  if strIncludes url ".r2.dev" || strIncludes url "r2.cloudflarestorage.com" then
    if strStartsWith url "http://" then "https://" ++ String.mk (url.toList.drop 7)
    else url
  else url

/-- Names of the four delivery strategies, in pipeline order. -/
inductive Strat where
  | link
  | fetch
  | img
  | window
deriving DecidableEq

/-- Embedding of `downloadImage` (download.ts): normalize the URL, then try
link, fetch, image-element and window strategies in order, short-circuiting on
the first success.  The second component records which strategies were
attempted, in order. -/
def downloadImage (env : BrowserEnv) (url filename : String) : Bool × List Strat :=
  let u := processR2Url url
  if downloadImageWithLink env u filename then (true, [Strat.link])
  else if downloadImageWithFetch env u filename then (true, [Strat.link, Strat.fetch])
  else if downloadImageViaImgElement env u filename then
    (true, [Strat.link, Strat.fetch, Strat.img])
  else (downloadImageWithWindow env u, [Strat.link, Strat.fetch, Strat.img, Strat.window])

/- ### TagRouter: related tags (src/project/src/components/About.tsx, getRelatedTags) -/

/-- The counter update `relatedTagsMap[imgTag] = (relatedTagsMap[imgTag] || 0) + 1`
on a JavaScript object used as an insertion-ordered multiset of tags. -/
def bumpTag (m : List (String × Nat)) (t : String) : List (String × Nat) :=
  match m with
  | [] => [(t, 1)]
  | (k, v) :: rest => if k = t then (k, v + 1) :: rest else (k, v) :: bumpTag rest t

/-- Body of the inner `forEach` of `getRelatedTags`: skip the focal tag and
the catch-all `others`, count everything else. -/
def innerStep (tag : String) (acc : List (String × Nat)) (t : String) :
    List (String × Nat) :=
  if t == tag || t == "others" then acc else bumpTag acc t

/-- The two nested `forEach` loops of `getRelatedTags`: over the catalog assets
containing the focal tag, count every co-occurring tag other than the focal
tag and the catch-all `others`. -/
def collectRelated (tag : String) (catalog : List (List String)) : List (String × Nat) :=
  (catalog.filter fun img => img.contains tag).foldl
    (fun acc img => img.foldl (innerStep tag) acc) []

/-- Embedding of the source's `.sort((a, b) => b[1] - a[1])`: the comparator
puts `a` before `b` exactly when `b.2 ≤ a.2`, and ECMAScript guarantees the
sort to be stable, so it is the stable (insertion) sort by that relation and
ties keep their insertion (first-seen) order. -/
def sortDesc (l : List (String × Nat)) : List (String × Nat) :=
  l.insertionSort (fun a b => b.2 ≤ a.2)

/-- Embedding of `getRelatedTags` (About.tsx, TagPage): count co-occurring
tags, sort by descending frequency (stably, so ties resolve to first-seen
order), take the top five, and drop the counts. -/
def getRelatedTags (tag : String) (catalog : List (List String)) : List String :=
  ((sortDesc (collectRelated tag catalog)).take 5).map Prod.fst

/-! ## Theorems -/

/-- C6: the tag→slug map and the derived slug→tag map are mutual inverses —
looking a tag's slug up in `SLUG_TO_TAG` recovers the tag, and looking a
slug's tag up in `TAG_TO_SLUG` recovers the slug (so `TAG_TO_SLUG` is
injective on the fixed vocabulary). -/
theorem tagSlug_mutual_inverses :
    (TAG_TO_SLUG.all fun p => List.lookup p.2 SLUG_TO_TAG == some p.1) = true ∧
    (SLUG_TO_TAG.all fun p => List.lookup p.2 TAG_TO_SLUG == some p.1) = true := by
  decide

/-- C8: changing the search term or the tag filter resets the visible window
to the first page — for every prior pagination state the effect leaves
`currentPage = 1` and the displayed list is the first 24 (or fewer) assets of
the newly filtered set. -/
theorem filterChange_resets_to_first_page (imgs : List ImageRec) (s : String)
    (tags : List String) (st : GridState) :
    (filterChangeEffect imgs s tags st).currentPage = 1 ∧
    (filterChangeEffect imgs s tags st).displayedImages =
      (getFilteredImages imgs s tags).take 24 := by
  unfold filterChangeEffect loadImages imagesPerPage
  simp

/-- C1 counterexample: on input `"abc"` (which yields neither a direct action
URL nor a resolvable provider ID) `triggerUnsplashDownload` dispatches no
request but returns `false`, not the `true` the claim states. -/
theorem triggerUnsplashDownload_noop_returns_false :
    triggerUnsplashDownload (fun _ => none) (UnsplashInput.str "abc") =
      (none, false) := by
  decide

/-- C1 (amended): `triggerUnsplashDownload` returns `true` exactly when an
outbound request was dispatched; when the input yields neither a direct action
URL nor a resolvable provider ID, no request is dispatched and the function
reports failure (`false`) to its caller. -/
theorem triggerUnsplashDownload_reports_dispatch
    (parse : String → Option (Option String)) (input : UnsplashInput) :
    (triggerUnsplashDownload parse input).2 =
      (triggerUnsplashDownload parse input).1.isSome := by
  unfold triggerUnsplashDownload
  cases resolveDownloadUrl parse input <;> rfl

/-- C3 counterexample: in an environment where the anchor path throws, the
fetch response is not ok, the canvas export throws, and the last-resort
`window.open` call also throws, `downloadImage` reaches the catch path of
`downloadImageWithWindow` and returns `false` — the pipeline does surface a
hard failure, contrary to the claim. -/
theorem downloadImage_all_throwing_env_fails :
    downloadImage ⟨true, some false, true, true, true, false, true⟩
        "http://x.r2.dev/a.png" "f.png" =
      (false, [Strat.link, Strat.fetch, Strat.img, Strat.window]) := by
  decide

/-- C3 (amended): whenever the direct-link, fetch-and-blob and canvas-redraw
strategies all fail (the canvas one including by the export step throwing),
`downloadImage` falls through to the new-tab fallback and returns its result —
success unless the `window.open` call itself throws; only that last throw,
caught and logged in `downloadImageWithWindow`, makes the pipeline report
failure to its caller. -/
theorem downloadImage_newtab_fallback (env : BrowserEnv) (url filename : String)
    (h1 : downloadImageWithLink env (processR2Url url) filename = false)
    (h2 : downloadImageWithFetch env (processR2Url url) filename = false)
    (h3 : downloadImageViaImgElement env (processR2Url url) filename = false) :
    downloadImage env url filename =
      (!env.windowThrows, [Strat.link, Strat.fetch, Strat.img, Strat.window]) := by
  unfold downloadImage
  simp [h1, h2, h3, downloadImageWithWindow]

/-- C3 witness: a concrete environment where the anchor path throws, the fetch
response is not ok, the canvas export throws (simulated taint) and
`window.open` returns normally; the pipeline still reports success via the
new-tab fallback. -/
theorem downloadImage_newtab_fallback_witness :
    downloadImage ⟨true, some false, true, true, true, false, false⟩
        "http://x.r2.dev/a.png" "f.png" =
      (!false, [Strat.link, Strat.fetch, Strat.img, Strat.window]) :=
  downloadImage_newtab_fallback ⟨true, some false, true, true, true, false, false⟩
    "http://x.r2.dev/a.png" "f.png" (by decide) (by decide) (by decide)

/-- C9: the pipeline attempts its strategies in the fixed order direct-link,
fetch-and-blob, canvas-redraw, new-tab — the attempt trace is always one of
the four prefixes of that order, so no strategy runs more than once — and it
short-circuits: when the direct-link strategy reports success the trace is
just `[link]`, so fetch is never invoked. -/
theorem downloadImage_ordered_short_circuit :
    (∀ env url filename, (downloadImage env url filename).2.Nodup ∧
      ((downloadImage env url filename).2 = [Strat.link] ∨
       (downloadImage env url filename).2 = [Strat.link, Strat.fetch] ∨
       (downloadImage env url filename).2 = [Strat.link, Strat.fetch, Strat.img] ∨
       (downloadImage env url filename).2 =
         [Strat.link, Strat.fetch, Strat.img, Strat.window])) ∧
    (∀ env url filename,
      downloadImageWithLink env (processR2Url url) filename = true →
      (downloadImage env url filename).2 = [Strat.link]) := by
  constructor
  · intro env url filename
    unfold downloadImage
    cases hL : downloadImageWithLink env (processR2Url url) filename <;>
      cases hF : downloadImageWithFetch env (processR2Url url) filename <;>
        cases hI : downloadImageViaImgElement env (processR2Url url) filename <;>
          simp [hL, hF, hI]
  · intro env url filename h
    unfold downloadImage
    simp [h]

/-- C9 witness: in an environment where the anchor path does not throw, the
direct-link strategy succeeds and the trace is exactly `[link]` — the fetch
strategy is never invoked. -/
theorem downloadImage_ordered_short_circuit_witness :
    (downloadImage ⟨false, none, false, false, false, false, false⟩ "u" "f").2 =
      [Strat.link] :=
  downloadImage_ordered_short_circuit.2
    ⟨false, none, false, false, false, false, false⟩
    "u" "f" (by decide)

/-- C5: every string of the canonical provider-ID shape — 10 to 13 characters
drawn from letters, digits, underscore and hyphen — is returned unchanged by
`extractUnsplashId`, whatever the JSON parser does. -/
theorem extractUnsplashId_canonical_unchanged
    (parse : String → Option (Option String)) (s : String)
    (h : isCanonicalId s = true) :
    extractUnsplashId parse s = some s := by
  have hne : ¬s = "" := by
    intro he
    rw [he] at h
    exact absurd h (by decide)
  unfold extractUnsplashId
  simp [hne, h]

/-- C5 witness: the canonical-shape string `aBcDeF_hi-` is returned
unchanged. -/
theorem extractUnsplashId_canonical_unchanged_witness :
    isCanonicalId "aBcDeF_hi-" = true ∧
    extractUnsplashId (fun _ => none) "aBcDeF_hi-" = some "aBcDeF_hi-" :=
  ⟨by decide, extractUnsplashId_canonical_unchanged (fun _ => none) "aBcDeF_hi-"
    (by decide)⟩

/-- Helper: after any number of load-more steps with the filter held fixed,
the displayed list is the prefix of the filtered view of length
`currentPage * imagesPerPage`, and `currentPage` has grown by the number of
steps. -/
theorem loadMoreIter_invariant (imgs : List ImageRec) (s : String)
    (tags : List String) (k : Nat) :
    ∀ (st : GridState) (p : Nat), 1 ≤ p → st.currentPage = p →
    st.displayedImages = (getFilteredImages imgs s tags).take (p * imagesPerPage) →
    (loadMoreIter imgs s tags k st).currentPage = p + k ∧
    (loadMoreIter imgs s tags k st).displayedImages =
      (getFilteredImages imgs s tags).take ((p + k) * imagesPerPage) := by
  induction k with
  | zero =>
    intro st p _ h1 h2
    simpa [loadMoreIter] using ⟨h1, h2⟩
  | succ k ih =>
    intro st p hp h1 h2
    have hstep :
        (loadMoreImages imgs s tags st).currentPage = p + 1 ∧
        (loadMoreImages imgs s tags st).displayedImages =
          (getFilteredImages imgs s tags).take ((p + 1) * imagesPerPage) := by
      unfold loadMoreImages loadImages
      constructor
      · simp [h1]
      · have hne : ¬st.currentPage + 1 = 1 := by omega
        simp only [hne, if_false]
        rw [h1, h2]
        have harith : (p + 1) * imagesPerPage = p * imagesPerPage + imagesPerPage := by
          ring
        have hstart : (p + 1 - 1) * imagesPerPage = p * imagesPerPage := by
          simp
        rw [harith, List.take_add, hstart]
    have := ih (loadMoreImages imgs s tags st) (p + 1) (by omega) hstep.1 hstep.2
    constructor
    · rw [loadMoreIter]
      rw [this.1]
      omega
    · rw [loadMoreIter]
      rw [this.2]
      congr 1
      ring

/-- C10: starting from page one and applying any number of load-more steps
with the filter held fixed, the displayed image list is always the contiguous
prefix of the filtered catalog view of length `currentPage * 24` (clipped at
the total) — no duplicates, omissions or reordering beyond those of the
filtered view itself. -/
theorem displayed_is_filtered_prefix (imgs : List ImageRec) (s : String)
    (tags : List String) (k : Nat) :
    (loadMoreIter imgs s tags k
      (loadImages 1 (getFilteredImages imgs s tags) initialGridState)).currentPage =
        k + 1 ∧
    (loadMoreIter imgs s tags k
      (loadImages 1 (getFilteredImages imgs s tags) initialGridState)).displayedImages =
      (getFilteredImages imgs s tags).take ((k + 1) * imagesPerPage) := by
  have hbase1 :
      (loadImages 1 (getFilteredImages imgs s tags) initialGridState).currentPage = 1 :=
    rfl
  have hbase2 :
      (loadImages 1 (getFilteredImages imgs s tags) initialGridState).displayedImages =
        (getFilteredImages imgs s tags).take (1 * imagesPerPage) := by
    unfold loadImages
    simp
  have h := loadMoreIter_invariant imgs s tags k
    (loadImages 1 (getFilteredImages imgs s tags) initialGridState) 1 (by omega)
    hbase1 hbase2
  constructor
  · rw [h.1]; omega
  · rw [h.2]; congr 1; ring

/-- C7: with a filtered set of 50 matching assets and page size 24, the
successive growth triggers reveal exactly 24, then 48, then 50 items; the
count never exceeds 50 and never decreases, and once all 50 are shown
`hasMoreImages` is false (so the observer detaches) and a further trigger
leaves the display unchanged. -/
theorem pagination_50_growth (imgs : List ImageRec) (s : String)
    (tags : List String) (h : (getFilteredImages imgs s tags).length = 50) :
    (loadImages 1 (getFilteredImages imgs s tags)
      initialGridState).displayedImages.length = 24 ∧
    (loadMoreImages imgs s tags (loadImages 1 (getFilteredImages imgs s tags)
      initialGridState)).displayedImages.length = 48 ∧
    (loadMoreImages imgs s tags (loadMoreImages imgs s tags
      (loadImages 1 (getFilteredImages imgs s tags)
        initialGridState))).displayedImages.length = 50 ∧
    hasMoreImages imgs s tags (loadMoreImages imgs s tags (loadMoreImages imgs s tags
      (loadImages 1 (getFilteredImages imgs s tags) initialGridState))) = false ∧
    (loadMoreImages imgs s tags (loadMoreImages imgs s tags (loadMoreImages imgs s tags
      (loadImages 1 (getFilteredImages imgs s tags)
        initialGridState)))).displayedImages =
      (loadMoreImages imgs s tags (loadMoreImages imgs s tags
        (loadImages 1 (getFilteredImages imgs s tags)
          initialGridState))).displayedImages := by
  have h0 := displayed_is_filtered_prefix imgs s tags 0
  have h1 := displayed_is_filtered_prefix imgs s tags 1
  have h2 := displayed_is_filtered_prefix imgs s tags 2
  have h3 := displayed_is_filtered_prefix imgs s tags 3
  simp only [loadMoreIter] at h0 h1 h2 h3
  refine ⟨?_, ?_, ?_, ?_, ?_⟩
  · rw [h0.2]
    simp [imagesPerPage, h]
  · rw [h1.2]
    simp [imagesPerPage, h]
  · rw [h2.2]
    simp [imagesPerPage, h]
  · unfold hasMoreImages
    rw [h2.1, h]
    simp [imagesPerPage]
  · rw [h3.2, h2.2, imagesPerPage]
    rw [List.take_of_length_le (by rw [h]; omega),
        List.take_of_length_le (by rw [h]; omega)]

/-- C7 witness: a concrete catalog of 50 assets all matching the empty filter
realizes the 24 / 48 / 50 growth pattern. -/
theorem pagination_50_growth_witness :
    (loadImages 1
      (getFilteredImages ((List.range 50).map fun i =>
        ⟨toString i, "a", ["cat"], "u", "v"⟩) "" [])
      initialGridState).displayedImages.length = 24 :=
  (pagination_50_growth ((List.range 50).map fun i =>
    ⟨toString i, "a", ["cat"], "u", "v"⟩) "" [] (by decide)).1

/-- Helper: a successful length attempt needs at least ten leading ID
characters at the current position. -/
theorem tryLen_idRun {l : List Char} {cont : List Char → Bool} {m : Nat}
    {g : List Char} (h : tryLen l cont m = some g) : 10 ≤ idRunLen l := by
  unfold tryLen at h
  split at h
  · rename_i hc
    exact le_trans hc.1 (le_trans hc.2.1 (min_le_right 13 (idRunLen l)))
  · exact absurd h (by simp)

/-- Helper: a successful group match needs at least ten leading ID characters
at the current position. -/
theorem groupAt_idRun {l : List Char} {cont : List Char → Bool} {g : List Char}
    (h : groupAt l cont = some g) : 10 ≤ idRunLen l := by
  unfold groupAt at h
  obtain ⟨m, _, hm⟩ := List.exists_of_findSome?_eq_some h
  exact tryLen_idRun hm

/-- Helper: a leading run of ten ID characters makes `hasIdRun` true. -/
theorem hasIdRun_of_run {l : List Char} (h : 10 ≤ idRunLen l) :
    hasIdRun l = true := by
  cases l with
  | nil => simp [idRunLen] at h
  | cons c cs => simp [hasIdRun, h]

/-- Helper: `hasIdRun` is monotone under cons. -/
theorem hasIdRun_cons_of {c : Char} {cs : List Char} (h : hasIdRun cs = true) :
    hasIdRun (c :: cs) = true := by
  simp [hasIdRun, h]

/-- Helper: a pattern-1 match exhibits a ten-character ID run. -/
theorem scanP1_run : ∀ {l g : List Char}, scanP1 l = some g → hasIdRun l = true := by
  intro l
  induction l with
  | nil => intro g h; simp [scanP1] at h
  | cons c cs ih =>
    intro g h
    rw [scanP1] at h
    split at h
    · split at h
      · rename_i heq
        exact hasIdRun_cons_of (hasIdRun_of_run (groupAt_idRun heq))
      · exact hasIdRun_cons_of (ih h)
    · exact hasIdRun_cons_of (ih h)

/-- Helper: a pattern-2 match exhibits a ten-character ID run. -/
theorem scanP2_run : ∀ {l g : List Char}, scanP2 l = some g → hasIdRun l = true := by
  intro l
  induction l with
  | nil => intro g h; simp [scanP2] at h
  | cons c cs ih =>
    intro g h
    rw [scanP2] at h
    split at h
    · split at h
      · rename_i heq
        exact hasIdRun_cons_of (hasIdRun_of_run (groupAt_idRun heq))
      · exact hasIdRun_cons_of (ih h)
    · exact hasIdRun_cons_of (ih h)

set_option maxHeartbeats 1000000 in
/-- Helper: a pattern-3 match exhibits a ten-character ID run. -/
theorem scanP3_run : ∀ {l g : List Char}, scanP3 l = some g → hasIdRun l = true := by
  intro l
  induction l with
  | nil => intro g h; simp [scanP3] at h
  | cons c cs ih =>
    intro g h
    rw [scanP3] at h
    split at h
    · rename_i heq
      exact hasIdRun_of_run (groupAt_idRun heq)
    · exact hasIdRun_cons_of (ih h)

/-- Helper: a pattern-4 match exhibits a ten-character ID run. -/
theorem scanP4_run {l g : List Char} (h : scanP4 l = some g) :
    hasIdRun l = true :=
  hasIdRun_of_run (groupAt_idRun h)

set_option maxHeartbeats 1000000 in
/-- Helper: a permissive-scan match exhibits a ten-character ID run. -/
theorem scanP5_run : ∀ {l g : List Char}, scanP5 l = some g → hasIdRun l = true := by
  intro l
  induction l with
  | nil => intro g h; simp [scanP5] at h
  | cons c cs ih =>
    intro g h
    rw [scanP5] at h
    split at h
    · rename_i heq
      exact hasIdRun_of_run (groupAt_idRun heq)
    · exact hasIdRun_cons_of (ih h)

/-- Helper: on a list of ID characters the leading run is everything. -/
theorem idRunLen_of_all : ∀ {l : List Char}, l.all isIdChar = true →
    idRunLen l = l.length := by
  intro l
  induction l with
  | nil => intro _; rfl
  | cons c cs ih =>
    intro h
    simp only [List.all_cons, Bool.and_eq_true] at h
    simp [idRunLen, h.1, ih h.2]

/-- Helper: a canonical-shape string contains a ten-character ID run. -/
theorem isCanonicalId_run {s : String} (h : isCanonicalId s = true) :
    hasIdRun s.toList = true := by
  unfold isCanonicalId at h
  simp only [Bool.and_eq_true, decide_eq_true_eq] at h
  apply hasIdRun_of_run
  rw [idRunLen_of_all h.2]
  exact h.1.1

/-- Helper: when the JSON parse throws, the JSON strategy yields nothing. -/
theorem jsonYield_none_of_parse {parse : String → Option (Option String)}
    {s : String} (h : parse s = none) : jsonYield parse s = none := by
  unfold jsonYield
  rw [h]
  split <;> rfl

/-- Helper: when no ten-character ID run exists, all pattern strategies and
the permissive scan fail. -/
theorem fallbackScan_none {s : String} (h : hasIdRun s.toList = false) :
    fallbackScan s = none := by
  have h1 : scanP1 s.toList = none := by
    cases he : scanP1 s.toList with
    | none => rfl
    | some g => rw [scanP1_run he] at h; cases h
  have h2 : scanP2 s.toList = none := by
    cases he : scanP2 s.toList with
    | none => rfl
    | some g => rw [scanP2_run he] at h; cases h
  have h3 : scanP3 s.toList = none := by
    cases he : scanP3 s.toList with
    | none => rfl
    | some g => rw [scanP3_run he] at h; cases h
  have h4 : scanP4 s.toList = none := by
    cases he : scanP4 s.toList with
    | none => rfl
    | some g => rw [scanP4_run he] at h; cases h
  have h5 : scanP5 s.toList = none := by
    cases he : scanP5 s.toList with
    | none => rfl
    | some g => rw [scanP5_run he] at h; cases h
  unfold fallbackScan patternPhase
  rw [h1, h2, h3, h4, h5]

/-- C4: `extractUnsplashId` is total and robust — the empty string resolves to
`none`; a JSON parse failure makes the function behave exactly as if the JSON
strategy were absent, falling through to the pattern strategies instead of
propagating the error; and when no strategy can match (no ten-character ID
run anywhere and nothing from the JSON branch) the result is the unresolved
`none`, never an error. -/
theorem extractUnsplashId_total_robust :
    (∀ parse : String → Option (Option String), extractUnsplashId parse "" = none) ∧
    (∀ (parse : String → Option (Option String)) (s : String), parse s = none →
      extractUnsplashId parse s = extractUnsplashId (fun _ => none) s) ∧
    (∀ (parse : String → Option (Option String)) (s : String), ¬s = "" →
      isCanonicalId s = false → parse s = none →
      extractUnsplashId parse s = fallbackScan s) ∧
    (∀ (parse : String → Option (Option String)) (s : String),
      hasIdRun s.toList = false → jsonYield parse s = none →
      extractUnsplashId parse s = none) := by
  refine ⟨?_, ?_, ?_, ?_⟩
  · intro parse
    rfl
  · intro parse s h
    unfold extractUnsplashId
    rw [jsonYield_none_of_parse h, jsonYield_none_of_parse rfl]
  · intro parse s hs hcan hp
    unfold extractUnsplashId
    rw [jsonYield_none_of_parse hp]
    simp [hs, hcan]
  · intro parse s hrun hj
    by_cases hs : s = ""
    · rw [hs]
      rfl
    · have hcan : isCanonicalId s = false := by
        cases hce : isCanonicalId s
        · rfl
        · rw [isCanonicalId_run hce] at hrun; cases hrun
      unfold extractUnsplashId
      rw [hj]
      simp [hs, hcan, fallbackScan_none hrun]

/-- C4 witness: the unmatchable string `hello` resolves to `none` with a
throwing parser, and the empty string resolves to `none`. -/
theorem extractUnsplashId_total_robust_witness :
    extractUnsplashId (fun _ => none) "hello" = none :=
  extractUnsplashId_total_robust.2.2.2 (fun _ => none) "hello" (by decide) (by decide)

/-- Helper: an entry of `bumpTag m t` is an old entry or carries key `t`. -/
theorem bumpTag_mem : ∀ {m : List (String × Nat)} {t : String} {x : String × Nat},
    x ∈ bumpTag m t → x ∈ m ∨ x.1 = t := by
  intro m
  induction m with
  | nil =>
    intro t x h
    simp [bumpTag] at h
    right
    rw [h]
  | cons y ys ih =>
    intro t x h
    rw [bumpTag] at h
    split at h
    · rename_i hk
      rcases List.mem_cons.1 h with h1 | h1
      · right
        rw [h1, ← hk]
      · left
        exact List.mem_cons_of_mem y h1
    · rcases List.mem_cons.1 h with h1 | h1
      · left
        rw [h1]
        exact List.mem_cons_self y ys
      · rcases ih h1 with h2 | h2
        · left
          exact List.mem_cons_of_mem y h2
        · right
          exact h2

/-- Helper: an entry produced by the inner counting loop is an old entry or a
co-occurring tag of the asset, distinct from the focal tag and `others`. -/
theorem innerFold_mem {tag : String} :
    ∀ (img : List String) (acc : List (String × Nat)) (x : String × Nat),
      x ∈ img.foldl (innerStep tag) acc →
      x ∈ acc ∨ (x.1 ∈ img ∧ ¬x.1 = tag ∧ ¬x.1 = "others") := by
  intro img
  induction img with
  | nil =>
    intro acc x h
    exact Or.inl h
  | cons t ts ih =>
    intro acc x h
    rw [List.foldl_cons] at h
    rcases ih (innerStep tag acc t) x h with h1 | h1
    · unfold innerStep at h1
      split at h1
      · exact Or.inl h1
      · rename_i hcond
        simp only [Bool.not_eq_true, Bool.or_eq_false_iff, beq_eq_false_iff_ne,
          ne_eq] at hcond
        rcases bumpTag_mem h1 with h2 | h2
        · exact Or.inl h2
        · refine Or.inr ⟨?_, ?_, ?_⟩
          · rw [h2]; exact List.mem_cons_self t ts
          · rw [h2]; exact hcond.1
          · rw [h2]; exact hcond.2
    · exact Or.inr ⟨List.mem_cons_of_mem t h1.1, h1.2⟩

/-- Helper: an entry produced by the outer counting loop comes from some asset
in the iterated list. -/
theorem outerFold_mem {tag : String} :
    ∀ (imgs : List (List String)) (acc : List (String × Nat)) (x : String × Nat),
      x ∈ imgs.foldl (fun acc img => img.foldl (innerStep tag) acc) acc →
      x ∈ acc ∨ ∃ img ∈ imgs, x.1 ∈ img ∧ ¬x.1 = tag ∧ ¬x.1 = "others" := by
  intro imgs
  induction imgs with
  | nil =>
    intro acc x h
    exact Or.inl h
  | cons img rest ih =>
    intro acc x h
    rw [List.foldl_cons] at h
    rcases ih (img.foldl (innerStep tag) acc) x h with h1 | h1
    · rcases innerFold_mem img acc x h1 with h2 | h2
      · exact Or.inl h2
      · exact Or.inr ⟨img, List.mem_cons_self img rest, h2⟩
    · obtain ⟨i, hi, hx⟩ := h1
      exact Or.inr ⟨i, List.mem_cons_of_mem img hi, hx⟩

/-- Helper: every counted entry names a tag that co-occurs with the focal tag
on some catalog asset and is neither the focal tag nor `others`. -/
theorem collectRelated_mem {tag : String} {catalog : List (List String)}
    {x : String × Nat} (h : x ∈ collectRelated tag catalog) :
    ∃ img ∈ catalog, tag ∈ img ∧ x.1 ∈ img ∧ ¬x.1 = tag ∧ ¬x.1 = "others" := by
  unfold collectRelated at h
  rcases outerFold_mem _ _ _ h with h1 | h1
  · cases h1
  · obtain ⟨img, hmem, hx⟩ := h1
    rw [List.mem_filter] at hmem
    refine ⟨img, hmem.1, ?_, hx⟩
    have := hmem.2
    simpa using this

/-- C2: the related-tags computation returns at most five tags; the underlying
count list is sorted by descending co-occurrence frequency (stably, so ties
keep catalog iteration order); every returned tag co-occurs with the focal tag
on some catalog asset and is neither the focal tag nor the catch-all
`others`; and on the spec's example catalog the result for `cat` is exactly
`[birthday]`, with a second example showing the first-seen tie-break. -/
theorem getRelatedTags_related_top5 :
    getRelatedTags "cat" [["cat"], ["cat", "birthday"], ["dog"]] = ["birthday"] ∧
    getRelatedTags "cat" [["cat", "dog"], ["cat", "bird"]] = ["dog", "bird"] ∧
    (∀ (tag : String) (catalog : List (List String)),
      (getRelatedTags tag catalog).length ≤ 5) ∧
    (∀ (tag : String) (catalog : List (List String)),
      List.Sorted (fun a b : String × Nat => b.2 ≤ a.2)
        (sortDesc (collectRelated tag catalog))) ∧
    (∀ (tag : String) (catalog : List (List String)) (t : String),
      t ∈ getRelatedTags tag catalog →
      ¬t = tag ∧ ¬t = "others" ∧ ∃ img ∈ catalog, tag ∈ img ∧ t ∈ img) := by
  refine ⟨by decide, by decide, ?_, ?_, ?_⟩
  · intro tag catalog
    unfold getRelatedTags
    rw [List.length_map, List.length_take]
    exact Nat.min_le_left _ _
  · intro tag catalog
    unfold sortDesc
    letI : IsTotal (String × Nat) (fun a b : String × Nat => b.2 ≤ a.2) :=
      ⟨fun a b => Nat.le_total b.2 a.2⟩
    letI : IsTrans (String × Nat) (fun a b : String × Nat => b.2 ≤ a.2) :=
      ⟨fun _ _ _ hab hbc => le_trans hbc hab⟩
    exact List.sorted_insertionSort _ _
  · intro tag catalog t ht
    unfold getRelatedTags at ht
    obtain ⟨x, hx, hxt⟩ := List.mem_map.1 ht
    have hx2 : x ∈ sortDesc (collectRelated tag catalog) :=
      List.take_subset 5 _ hx
    have hx3 : x ∈ collectRelated tag catalog := by
      unfold sortDesc at hx2
      exact (List.mem_insertionSort _).1 hx2
    obtain ⟨img, himg, htag, hmem, hne1, hne2⟩ := collectRelated_mem hx3
    rw [← hxt]
    exact ⟨hne1, hne2, img, himg, htag, hmem⟩

/-- C2 witness: instantiating the co-occurrence property on the example
catalog — `birthday` is a returned related tag of `cat`, differs from the
focal tag and `others`, and co-occurs with `cat` on a catalog asset. -/
theorem getRelatedTags_related_top5_witness :
    ¬"birthday" = "cat" ∧ ¬"birthday" = "others" ∧
    ∃ img ∈ [["cat"], ["cat", "birthday"], ["dog"]],
      "cat" ∈ img ∧ "birthday" ∈ img :=
  getRelatedTags_related_top5.2.2.2.2 "cat" [["cat"], ["cat", "birthday"], ["dog"]]
    "birthday" (by decide)

end Sticker
